import Mathlib

/-!
Shallow embedding of the nexus-ai repository's database-initialization core.

The repository consists of `src/core/database.py` (the function
`initialize_database`, which ensures the parent directory of the target path
exists, opens a SQLite connection, issues five `CREATE TABLE IF NOT EXISTS`
statements, commits and closes) and `scripts/initialize_database.py` (a
command-line wrapper that calls it with the default path `data/nexus.db` and
prints a confirmation line).

The embedding models:
  * the filesystem state touched by `os.makedirs` and `sqlite3.connect`
    (directories, a per-name creation-permission predicate, and files);
  * SQLite's documented semantics of the statements the code issues:
    `CREATE TABLE IF NOT EXISTS` is a no-op when a table with that name
    already exists (whatever its shape); column defaults (`DEFAULT 'x'`,
    `DEFAULT CURRENT_TIMESTAMP`) and `NOT NULL` checks on `INSERT`;
    `INTEGER PRIMARY KEY AUTOINCREMENT` row-id assignment through the
    `sqlite_sequence` counter (largest id ever assigned); foreign keys are
    declared in the schema but not enforced, because SQLite's
    `PRAGMA foreign_keys` defaults to OFF and the code never enables it;
  * the control flow of `initialize_database` itself, including the fact
    that `conn.close()` is executed only on the straight-line path (the
    Python source has no try/finally), which the model records in the
    `connOpened`/`connClosed` fields of the result;
  * the failure modes reachable from the code: `os.makedirs('')` (raised
    when the path has no directory component), directory creation denied,
    file creation denied, and connecting to a file that is not a SQLite
    database (which surfaces as an error on the first executed statement,
    after the connection was opened).
-/

/-- Error kinds surfaced by the Python code: `OSError` and friends from
`os.makedirs` / `sqlite3.connect` (I/O kind), `sqlite3.DatabaseError` when the
file is not a database, and `sqlite3.IntegrityError` for NOT NULL violations. -/
inductive ErrKind where
  | ioError (msg : String)
  | databaseError (msg : String)
  | constraintError (msg : String)
deriving DecidableEq, Repr

/-- A SQLite column default clause, as written in the DDL of
`initialize_database`. -/
inductive ColDefault where
  | noDefault
  | defaultText (s : String)
  | currentTimestamp
deriving DecidableEq, Repr

/-- One column declaration of a `CREATE TABLE` statement. -/
structure Column where
  name : String
  declaredType : String
  notNull : Bool
  dflt : ColDefault
  primaryKeyAutoincrement : Bool
deriving DecidableEq, Repr

/-- A foreign-key clause `FOREIGN KEY(column) REFERENCES refTable(refColumn)`. -/
structure ForeignKey where
  column : String
  refTable : String
  refColumn : String
deriving DecidableEq, Repr

/-- The schema of one table: its name, columns in declaration order, and
declared foreign keys. -/
structure TableSchema where
  name : String
  columns : List Column
  foreignKeys : List ForeignKey
deriving DecidableEq, Repr

/-- A stored SQL value.  `timestamp n` stands for the value produced by
`CURRENT_TIMESTAMP` at abstract clock instant `n`. -/
inductive Value where
  | null
  | int (n : Int)
  | text (s : String)
  | timestamp (t : Nat)
deriving DecidableEq, Repr

/-- A table in the database file: its schema, its rows (each row lists the
values in column order), and the `sqlite_sequence` counter used by
`AUTOINCREMENT` (the largest row id ever assigned, never decreased). -/
structure Table where
  schema : TableSchema
  rows : List (List Value)
  seq : Int
deriving DecidableEq, Repr

/-- The contents of one SQLite database file. -/
structure DB where
  tables : List Table
deriving DecidableEq, Repr

def emptyDB : DB := ⟨[]⟩

/-- The contents of a file on disk: either a SQLite database or something
else (a file whose header is not SQLite's; connecting to it succeeds but the
first executed statement raises `DatabaseError`). -/
inductive FileContent where
  | dbFile (db : DB)
  | otherFile
deriving DecidableEq, Repr

/-- The filesystem state visible to `initialize_database`: the set of
existing directories, a predicate saying whether a missing entry of a given
name may be created (the permission model), and the files by path. -/
structure FS where
  dirs : List String
  writable : String → Bool
  files : List (String × FileContent)

def lookupFile : List (String × FileContent) → String → Option FileContent
  | [], _ => none
  | (q, c) :: rest, p => if q = p then some c else lookupFile rest p

def setFileList : List (String × FileContent) → String → FileContent → List (String × FileContent)
  | [], p, c => [(p, c)]
  | (q, c0) :: rest, p, c =>
      if q = p then (p, c) :: rest else (q, c0) :: setFileList rest p c

def setFile (fs : FS) (p : String) (c : FileContent) : FS :=
  { fs with files := setFileList fs.files p c }

/-- Split a path on `'/'` into its components (model of the path splitting
underlying `os.path.dirname` / `os.makedirs`). -/
def splitPathAux : List Char → List Char → List String
  | [], acc => [String.mk acc.reverse]
  | c :: rest, acc =>
      if c = '/' then String.mk acc.reverse :: splitPathAux rest []
      else splitPathAux rest (c :: acc)

def splitPath (p : String) : List String := splitPathAux p.data []

def joinPath : List String → String
  | [] => ""
  | [s] => s
  | s :: rest => s ++ "/" ++ joinPath rest

/-- Model of `os.path.dirname`: everything before the last `'/'`, and `""`
when the path has no directory component. -/
def dirname (p : String) : String := joinPath (splitPath p).dropLast

/-- The chain of ancestor directories `os.makedirs` creates for a directory
path: for `"a/b/c"` this is `["a", "a/b", "a/b/c"]`. -/
def prefixChainAux (acc : String) : List String → List String
  | [] => []
  | s :: rest =>
      let acc2 := if acc = "" then s else acc ++ "/" ++ s
      acc2 :: prefixChainAux acc2 rest

def dirPrefixes (d : String) : List String := prefixChainAux "" (splitPath d)

/-- Create each directory of the chain in order, skipping the ones that
exist (`exist_ok=True`) and stopping with `PermissionError` at the first one
that is missing and may not be created.  Directories created before the
failure remain, as with `os.makedirs`. -/
def mkdirChain (fs : FS) : List String → FS × Except ErrKind Unit
  | [] => (fs, Except.ok ())
  | d :: rest =>
      if d ∈ fs.dirs then mkdirChain fs rest
      else if fs.writable d then
        mkdirChain { fs with dirs := d :: fs.dirs } rest
      else (fs, Except.error (ErrKind.ioError "permission denied"))

/-- Model of `os.makedirs(d, exist_ok=True)`.  Calling it on the empty
string (which `os.path.dirname` yields for a bare filename) raises
`FileNotFoundError`. -/
def makedirs (fs : FS) (d : String) : FS × Except ErrKind Unit :=
  if d = "" then (fs, Except.error (ErrKind.ioError "no such file or directory"))
  else mkdirChain fs (dirPrefixes d)

/-- Model of `sqlite3.connect(p)`: an existing file is opened as-is (its
content is validated only when a statement runs); a missing file is created
empty, provided its directory exists (or the path is a bare filename in the
working directory) and creation is permitted. -/
def connect (fs : FS) (p : String) : Except ErrKind (FS × FileContent) :=
  match lookupFile fs.files p with
  | some c => Except.ok (fs, c)
  | none =>
      if (dirname p = "" ∨ dirname p ∈ fs.dirs) ∧ fs.writable p = true then
        Except.ok ({ fs with files := (p, FileContent.dbFile emptyDB) :: fs.files },
          FileContent.dbFile emptyDB)
      else Except.error (ErrKind.ioError "unable to open database file")

def tableNames (db : DB) : List String := db.tables.map (fun t => t.schema.name)

/-- Model of `CREATE TABLE IF NOT EXISTS`: when a table with the requested
name already exists — whatever its shape — the statement is a no-op;
otherwise the empty table is appended. -/
def createTableIfNotExists (db : DB) (ts : TableSchema) : DB :=
  if ts.name ∈ tableNames db then db
  else ⟨db.tables ++ [⟨ts, [], 0⟩]⟩

/-- The `goals` table of `initialize_database`, line for line. -/
def goalsSchema : TableSchema :=
  ⟨"goals",
   [⟨"id", "INTEGER", false, ColDefault.noDefault, true⟩,
    ⟨"title", "TEXT", true, ColDefault.noDefault, false⟩,
    ⟨"description", "TEXT", false, ColDefault.noDefault, false⟩,
    ⟨"type", "TEXT", false, ColDefault.noDefault, false⟩,
    ⟨"deadline", "DATE", false, ColDefault.noDefault, false⟩,
    ⟨"priority", "TEXT", false, ColDefault.noDefault, false⟩,
    ⟨"status", "TEXT", false, ColDefault.defaultText "active", false⟩,
    ⟨"created_at", "TIMESTAMP", false, ColDefault.currentTimestamp, false⟩],
   []⟩

/-- The `tasks` table of `initialize_database`, line for line. -/
def tasksSchema : TableSchema :=
  ⟨"tasks",
   [⟨"id", "INTEGER", false, ColDefault.noDefault, true⟩,
    ⟨"goal_id", "INTEGER", false, ColDefault.noDefault, false⟩,
    ⟨"title", "TEXT", true, ColDefault.noDefault, false⟩,
    ⟨"description", "TEXT", false, ColDefault.noDefault, false⟩,
    ⟨"status", "TEXT", false, ColDefault.defaultText "pending", false⟩,
    ⟨"deadline", "DATE", false, ColDefault.noDefault, false⟩,
    ⟨"estimated_hours", "REAL", false, ColDefault.noDefault, false⟩,
    ⟨"created_at", "TIMESTAMP", false, ColDefault.currentTimestamp, false⟩],
   [⟨"goal_id", "goals", "id"⟩]⟩

/-- The `daily_logs` table of `initialize_database`, line for line. -/
def dailyLogsSchema : TableSchema :=
  ⟨"daily_logs",
   [⟨"id", "INTEGER", false, ColDefault.noDefault, true⟩,
    ⟨"date", "DATE", true, ColDefault.noDefault, false⟩,
    ⟨"notes", "TEXT", false, ColDefault.noDefault, false⟩,
    ⟨"created_at", "TIMESTAMP", false, ColDefault.currentTimestamp, false⟩],
   []⟩

/-- The `calendar_events` table of `initialize_database`, line for line. -/
def calendarEventsSchema : TableSchema :=
  ⟨"calendar_events",
   [⟨"id", "INTEGER", false, ColDefault.noDefault, true⟩,
    ⟨"external_id", "TEXT", false, ColDefault.noDefault, false⟩,
    ⟨"title", "TEXT", false, ColDefault.noDefault, false⟩,
    ⟨"start_time", "DATETIME", false, ColDefault.noDefault, false⟩,
    ⟨"end_time", "DATETIME", false, ColDefault.noDefault, false⟩,
    ⟨"source", "TEXT", false, ColDefault.noDefault, false⟩,
    ⟨"created_at", "TIMESTAMP", false, ColDefault.currentTimestamp, false⟩],
   []⟩

/-- The `patterns` table of `initialize_database`, line for line. -/
def patternsSchema : TableSchema :=
  ⟨"patterns",
   [⟨"id", "INTEGER", false, ColDefault.noDefault, true⟩,
    ⟨"pattern_type", "TEXT", false, ColDefault.noDefault, false⟩,
    ⟨"data", "TEXT", false, ColDefault.noDefault, false⟩,
    ⟨"created_at", "TIMESTAMP", false, ColDefault.currentTimestamp, false⟩],
   []⟩

def fiveSchemas : List TableSchema :=
  [goalsSchema, tasksSchema, dailyLogsSchema, calendarEventsSchema, patternsSchema]

def fiveNames : List String :=
  ["goals", "tasks", "daily_logs", "calendar_events", "patterns"]

/-- The five `cursor.execute` calls of `initialize_database`, in source
order. -/
def runBody (db : DB) : DB :=
  createTableIfNotExists
    (createTableIfNotExists
      (createTableIfNotExists
        (createTableIfNotExists
          (createTableIfNotExists db goalsSchema)
          tasksSchema)
        dailyLogsSchema)
      calendarEventsSchema)
    patternsSchema

/-- The result of one call to `initialize_database`: the filesystem after
the call (changes made before a failure persist), the outcome, and whether
the SQLite connection was opened resp. explicitly closed before the call
returned. -/
structure InitResult where
  fs : FS
  outcome : Except ErrKind Unit
  connOpened : Bool
  connClosed : Bool

/-- `initialize_database(db_path)` from `src/core/database.py`:
`os.makedirs(os.path.dirname(db_path), exist_ok=True)`, then
`sqlite3.connect`, then the five `CREATE TABLE IF NOT EXISTS` statements,
then `conn.commit()` and `conn.close()`.  The Python function has no
try/finally: when a statement raises after the connection was opened (the
`otherFile` branch below), `conn.close()` is never reached, which the model
records as `connClosed := false`. -/
def initialize_database (fs0 : FS) (db_path : String) : InitResult :=
  match makedirs fs0 (dirname db_path) with
  | (fs1, Except.error e) => ⟨fs1, Except.error e, false, false⟩
  | (fs1, Except.ok _) =>
      match connect fs1 db_path with
      | Except.error e => ⟨fs1, Except.error e, false, false⟩
      | Except.ok (fs2, FileContent.otherFile) =>
          ⟨fs2, Except.error (ErrKind.databaseError "file is not a database"), true, false⟩
      | Except.ok (fs2, FileContent.dbFile db) =>
          ⟨setFile fs2 db_path (FileContent.dbFile (runBody db)), Except.ok (), true, true⟩

/-- The value an omitted column takes on insert, per its default clause
(`NULL` when there is none). -/
def defaultValue (c : Column) (now : Nat) : Value :=
  match c.dflt with
  | ColDefault.noDefault => Value.null
  | ColDefault.defaultText s => Value.text s
  | ColDefault.currentTimestamp => Value.timestamp now

def lookupVal : List (String × Value) → String → Option Value
  | [], _ => none
  | (n, v) :: rest, m => if n = m then some v else lookupVal rest m

/-- The stored value of one column for an `INSERT` that supplies `vals`
(column name / value pairs; the `id` column is never supplied, so the
automatically assigned row id `autoId` is used there).  A `NULL` landing in
a `NOT NULL` column — supplied or by absent default — is an
`IntegrityError`. -/
def colValue (c : Column) (vals : List (String × Value)) (now : Nat) (autoId : Int) :
    Except ErrKind Value :=
  if c.primaryKeyAutoincrement then Except.ok (Value.int autoId)
  else
    let v := match lookupVal vals c.name with
      | some w => w
      | none => defaultValue c now
    if c.notNull = true ∧ v = Value.null then
      Except.error (ErrKind.constraintError ("NOT NULL constraint failed: " ++ c.name))
    else Except.ok v

def buildRow (cols : List Column) (vals : List (String × Value)) (now : Nat) (autoId : Int) :
    Except ErrKind (List Value) :=
  match cols with
  | [] => Except.ok []
  | c :: rest =>
      match colValue c vals now autoId, buildRow rest vals now autoId with
      | Except.ok v, Except.ok vs => Except.ok (v :: vs)
      | Except.error e, _ => Except.error e
      | _, Except.error e => Except.error e

/-- `INSERT INTO t (...) VALUES (...)` at clock instant `now`, with the row
id assigned by `AUTOINCREMENT`: one more than the `sqlite_sequence` counter,
which is then advanced.  Returns the updated table and the assigned id. -/
def insertRow (t : Table) (vals : List (String × Value)) (now : Nat) :
    Except ErrKind (Table × Int) :=
  match buildRow t.schema.columns vals now (t.seq + 1) with
  | Except.error e => Except.error e
  | Except.ok row => Except.ok (⟨t.schema, t.rows ++ [row], t.seq + 1⟩, t.seq + 1)

/-- The position of the `INTEGER PRIMARY KEY AUTOINCREMENT` column (column 0
in every table created by `initialize_database`). -/
def pkIndex (ts : TableSchema) : Nat :=
  ts.columns.findIdx (fun c => c.primaryKeyAutoincrement)

/-- `DELETE FROM t WHERE id = n`.  No foreign-key check or cascade runs:
SQLite's `PRAGMA foreign_keys` defaults to OFF and `initialize_database`
never issues that pragma. -/
def deleteById (t : Table) (n : Int) : Table :=
  ⟨t.schema, t.rows.filter (fun r => decide (¬ r.get? (pkIndex t.schema) = some (Value.int n))), t.seq⟩

def tablesInsert (ts : List Table) (tname : String) (vals : List (String × Value)) (now : Nat) :
    Except ErrKind (List Table) :=
  match ts with
  | [] => Except.error (ErrKind.ioError ("no such table: " ++ tname))
  | t :: rest =>
      if t.schema.name = tname then
        match insertRow t vals now with
        | Except.ok (t2, _) => Except.ok (t2 :: rest)
        | Except.error e => Except.error e
      else
        match tablesInsert rest tname vals now with
        | Except.ok rest2 => Except.ok (t :: rest2)
        | Except.error e => Except.error e

/-- `INSERT` against a whole database file, addressing the table by name. -/
def dbInsert (db : DB) (tname : String) (vals : List (String × Value)) (now : Nat) :
    Except ErrKind DB :=
  match tablesInsert db.tables tname vals now with
  | Except.ok ts => Except.ok ⟨ts⟩
  | Except.error e => Except.error e

/-- `DELETE ... WHERE id = n` against a whole database file.  No
foreign-key check or cascade runs (see `deleteById`). -/
def dbDelete (db : DB) (tname : String) (n : Int) : Except ErrKind DB :=
  if tname ∈ tableNames db then
    Except.ok ⟨db.tables.map (fun t => if t.schema.name = tname then deleteById t n else t)⟩
  else Except.error (ErrKind.ioError ("no such table: " ++ tname))

/-- A data-manipulation operation run by components outside the initializer
between two initialization calls. -/
inductive DbOp where
  | ins (tname : String) (vals : List (String × Value)) (now : Nat)
  | del (tname : String) (id : Int)

/-- Apply one operation; a failing statement leaves the database as it
was. -/
def applyOp (db : DB) (op : DbOp) : DB :=
  match op with
  | DbOp.ins tname vals now =>
      match dbInsert db tname vals now with
      | Except.ok db2 => db2
      | Except.error _ => db
  | DbOp.del tname n =>
      match dbDelete db tname n with
      | Except.ok db2 => db2
      | Except.error _ => db

def applyOps (db : DB) (ops : List DbOp) : DB := ops.foldl applyOp db

/-- An operation against a single table, for reasoning about id
assignment. -/
inductive TableOp where
  | ins (vals : List (String × Value)) (now : Nat)
  | del (id : Int)

def applyTableOp (t : Table) (op : TableOp) : Table :=
  match op with
  | TableOp.ins vals now =>
      match insertRow t vals now with
      | Except.ok (t2, _) => t2
      | Except.error _ => t
  | TableOp.del n => deleteById t n

/-- The row ids assigned by the successful inserts of an operation
sequence, in order. -/
def assignedIds (t : Table) : List TableOp → List Int
  | [] => []
  | TableOp.ins vals now :: rest =>
      match insertRow t vals now with
      | Except.ok (t2, n) => n :: assignedIds t2 rest
      | Except.error _ => assignedIds t rest
  | TableOp.del n :: rest => assignedIds (deleteById t n) rest

/-- The rows of the table called `tname`, or `[]` when there is none. -/
def dbRows (db : DB) (tname : String) : List (List Value) :=
  match db.tables.find? (fun t => t.schema.name = tname) with
  | some t => t.rows
  | none => []

/-- The default storage location of the command-line script. -/
def defaultDbPath : String := "data/nexus.db"

/-- One run of the command-line entry point. -/
structure CliRun where
  init : InitResult
  exitCode : Nat
  stdout : List String
  stderr : List String

def errMessage : ErrKind → String
  | ErrKind.ioError m => m
  | ErrKind.databaseError m => m
  | ErrKind.constraintError m => m

/-- `scripts/initialize_database.py`: call `initialize_database()` with its
default path; on success print the confirmation line and exit 0; an
exception is not caught, so the interpreter prints a traceback to stderr
and exits 1, and the confirmation line is never printed. -/
def scriptMain (fs : FS) : CliRun :=
  match (initialize_database fs defaultDbPath).outcome with
  | Except.ok _ =>
      ⟨initialize_database fs defaultDbPath, 0,
       ["Database initialized successfully at data/nexus.db"], []⟩
  | Except.error e =>
      ⟨initialize_database fs defaultDbPath, 1, [],
       ["Traceback (most recent call last): " ++ errMessage e]⟩

/-- The database contents produced by a first initialization of a fresh
storage file. -/
def initialDB : DB := runBody emptyDB

/-- Environment conditions under which an initialization run can fully
succeed: the target path has a well-formed nonempty directory component
('/'-separated nonempty names) and the permission model allows creating
every missing ancestor directory as well as the storage file itself. -/
def canInit (fs : FS) (path : String) : Prop :=
  dirname path ≠ "" ∧ "" ∉ splitPath (dirname path) ∧
  (∀ d ∈ dirPrefixes (dirname path), d ∉ fs.dirs → fs.writable d = true) ∧
  fs.writable path = true

/-- An empty filesystem in which everything may be created. -/
def fsEmpty : FS := ⟨[], fun _ => true, []⟩

/-- A filesystem where no directory or file may be created (e.g. a
read-only location). -/
def fsDenied : FS := ⟨[], fun _ => false, []⟩

/-- A filesystem holding, at the default storage path, a file that is not a
SQLite database. -/
def fsNotADB : FS := ⟨["data"], fun _ => true, [("data/nexus.db", FileContent.otherFile)]⟩

/-- A table named `goals` whose shape is incompatible with `goalsSchema`. -/
def conflictTable : Table :=
  ⟨⟨"goals", [⟨"x", "BLOB", false, ColDefault.noDefault, false⟩], []⟩, [], 0⟩

/-- A filesystem whose storage file already holds the incompatible `goals`
table. -/
def fsConflict : FS :=
  ⟨["data"], fun _ => true, [("data/nexus.db", FileContent.dbFile ⟨[conflictTable]⟩)]⟩

/-! ### Helper lemmas about the filesystem model -/

theorem mkdirChain_writable (l : List String) (fs : FS) :
    (mkdirChain fs l).1.writable = fs.writable := by
  induction l generalizing fs with
  | nil => rfl
  | cons d rest ih =>
      unfold mkdirChain
      by_cases h : d ∈ fs.dirs
      · simp only [if_pos h]
        exact ih fs
      · simp only [if_neg h]
        by_cases hw : fs.writable d
        · simp only [if_pos hw]
          exact ih _
        · simp only [if_neg hw]

theorem mkdirChain_files (l : List String) (fs : FS) :
    (mkdirChain fs l).1.files = fs.files := by
  induction l generalizing fs with
  | nil => rfl
  | cons d rest ih =>
      unfold mkdirChain
      by_cases h : d ∈ fs.dirs
      · simp only [if_pos h]
        exact ih fs
      · simp only [if_neg h]
        by_cases hw : fs.writable d
        · simp only [if_pos hw]
          exact ih _
        · simp only [if_neg hw]

theorem mkdirChain_dirs_grow (l : List String) (fs : FS) :
    ∀ d ∈ fs.dirs, d ∈ (mkdirChain fs l).1.dirs := by
  induction l generalizing fs with
  | nil => intro d hd; exact hd
  | cons e rest ih =>
      intro d hd
      unfold mkdirChain
      by_cases h : e ∈ fs.dirs
      · simp only [if_pos h]
        exact ih fs d hd
      · simp only [if_neg h]
        by_cases hw : fs.writable e
        · simp only [if_pos hw]
          exact ih _ d (List.mem_cons_of_mem e hd)
        · simp only [if_neg hw]
          exact hd

theorem mkdirChain_ok_mem (l : List String) (fs : FS)
    (h : (mkdirChain fs l).2 = Except.ok ()) :
    ∀ d ∈ l, d ∈ (mkdirChain fs l).1.dirs := by
  induction l generalizing fs with
  | nil => intro d hd; cases hd
  | cons e rest ih =>
      intro d hd
      unfold mkdirChain at h ⊢
      by_cases he : e ∈ fs.dirs
      · simp only [if_pos he] at h ⊢
        rcases List.mem_cons.mp hd with rfl | hd2
        · exact mkdirChain_dirs_grow rest fs d he
        · exact ih fs h d hd2
      · simp only [if_neg he] at h ⊢
        by_cases hw : fs.writable e
        · simp only [if_pos hw] at h ⊢
          rcases List.mem_cons.mp hd with rfl | hd2
          · exact mkdirChain_dirs_grow rest _ d (List.mem_cons_self d fs.dirs)
          · exact ih _ h d hd2
        · simp only [if_neg hw] at h
          cases h

theorem mkdirChain_of_all_mem (l : List String) (fs : FS)
    (h : ∀ d ∈ l, d ∈ fs.dirs) :
    mkdirChain fs l = (fs, Except.ok ()) := by
  induction l with
  | nil => rfl
  | cons e rest ih =>
      unfold mkdirChain
      have he : e ∈ fs.dirs := h e (List.mem_cons_self e rest)
      simp only [if_pos he]
      exact ih (fun d hd => h d (List.mem_cons_of_mem e hd))

theorem mkdirChain_ok_of_writable (l : List String) (fs : FS)
    (h : ∀ d ∈ l, d ∉ fs.dirs → fs.writable d = true) :
    (mkdirChain fs l).2 = Except.ok () := by
  induction l generalizing fs with
  | nil => rfl
  | cons e rest ih =>
      unfold mkdirChain
      by_cases he : e ∈ fs.dirs
      · simp only [if_pos he]
        exact ih fs (fun d hd hnd => h d (List.mem_cons_of_mem e hd) hnd)
      · have hw : fs.writable e = true := h e (List.mem_cons_self e rest) he
        simp only [if_neg he, if_pos hw]
        refine ih _ (fun d hd hnd => ?_)
        have : d ∉ fs.dirs := fun hmem => hnd (List.mem_cons_of_mem e hmem)
        exact h d (List.mem_cons_of_mem e hd) this

theorem mkdirChain_err_of_unwritable (l : List String) (fs : FS) (d : String)
    (hd : d ∈ l) (hnd : d ∉ fs.dirs) (hw : fs.writable d = false) :
    (mkdirChain fs l).2 = Except.error (ErrKind.ioError "permission denied") := by
  induction l generalizing fs with
  | nil => cases hd
  | cons e rest ih =>
      unfold mkdirChain
      by_cases he : e ∈ fs.dirs
      · simp only [if_pos he]
        rcases List.mem_cons.mp hd with rfl | hd2
        · exact absurd he hnd
        · exact ih fs hd2 hnd hw
      · simp only [if_neg he]
        by_cases hew : fs.writable e
        · simp only [if_pos hew]
          rcases List.mem_cons.mp hd with rfl | hd2
          · rw [hw] at hew; cases hew
          · refine ih _ hd2 ?_ hw
            intro hmem
            rcases List.mem_cons.mp hmem with rfl | h2
            · rw [hw] at hew; cases hew
            · exact hnd h2
        · simp only [if_neg hew]

theorem makedirs_writable (fs : FS) (d : String) :
    (makedirs fs d).1.writable = fs.writable := by
  unfold makedirs
  by_cases h : d = ""
  · simp only [if_pos h]
  · simp only [if_neg h]
    exact mkdirChain_writable _ fs

theorem makedirs_files (fs : FS) (d : String) :
    (makedirs fs d).1.files = fs.files := by
  unfold makedirs
  by_cases h : d = ""
  · simp only [if_pos h]
  · simp only [if_neg h]
    exact mkdirChain_files _ fs

theorem makedirs_ok_mem (fs : FS) (d : String)
    (h : (makedirs fs d).2 = Except.ok ()) :
    ∀ p ∈ dirPrefixes d, p ∈ (makedirs fs d).1.dirs := by
  unfold makedirs at h ⊢
  by_cases hd : d = ""
  · simp only [if_pos hd] at h
    cases h
  · simp only [if_neg hd] at h ⊢
    exact mkdirChain_ok_mem _ fs h

theorem makedirs_of_all_mem (fs : FS) (d : String) (hd : d ≠ "")
    (h : ∀ p ∈ dirPrefixes d, p ∈ fs.dirs) :
    makedirs fs d = (fs, Except.ok ()) := by
  unfold makedirs
  simp only [if_neg hd]
  exact mkdirChain_of_all_mem _ fs h

theorem lookupFile_setFileList (l : List (String × FileContent)) (p : String) (c : FileContent) :
    lookupFile (setFileList l p c) p = some c := by
  induction l with
  | nil => simp [setFileList, lookupFile]
  | cons qc rest ih =>
      rcases qc with ⟨q, c0⟩
      unfold setFileList
      by_cases h : q = p
      · simp [if_pos h, lookupFile]
      · simp only [if_neg h, lookupFile, if_neg h]
        exact ih

/-! ### Helper lemmas about the schema and data model -/

theorem createTable_of_mem {db : DB} {ts : TableSchema} (h : ts.name ∈ tableNames db) :
    createTableIfNotExists db ts = db := by
  unfold createTableIfNotExists
  simp only [if_pos h]

theorem createTable_of_not_mem {db : DB} {ts : TableSchema} (h : ts.name ∉ tableNames db) :
    createTableIfNotExists db ts = ⟨db.tables ++ [⟨ts, [], 0⟩]⟩ := by
  unfold createTableIfNotExists
  simp only [if_neg h]

theorem createTable_tables (db : DB) (ts : TableSchema) :
    ∃ new, (createTableIfNotExists db ts).tables = db.tables ++ new := by
  by_cases h : ts.name ∈ tableNames db
  · exact ⟨[], by rw [createTable_of_mem h]; simp⟩
  · exact ⟨[⟨ts, [], 0⟩], by rw [createTable_of_not_mem h]⟩

theorem mem_tableNames_of_append {db : DB} {new : List Table} {n : String}
    (h : n ∈ tableNames db) : n ∈ tableNames ⟨db.tables ++ new⟩ := by
  unfold tableNames at h ⊢
  simp only [List.map_append, List.mem_append]
  exact Or.inl h

theorem createTable_mono {db : DB} {n : String} (ts : TableSchema)
    (h : n ∈ tableNames db) : n ∈ tableNames (createTableIfNotExists db ts) := by
  obtain ⟨new, hnew⟩ := createTable_tables db ts
  have he : createTableIfNotExists db ts = ⟨db.tables ++ new⟩ := by
    cases hdb : createTableIfNotExists db ts
    simp only [hdb] at hnew
    simp [hnew]
  rw [he]
  exact mem_tableNames_of_append h

theorem createTable_self_mem (db : DB) (ts : TableSchema) :
    ts.name ∈ tableNames (createTableIfNotExists db ts) := by
  by_cases h : ts.name ∈ tableNames db
  · rw [createTable_of_mem h]; exact h
  · rw [createTable_of_not_mem h]
    unfold tableNames
    simp

theorem runBody_tables (db : DB) :
    ∃ new, (runBody db).tables = db.tables ++ new := by
  unfold runBody
  obtain ⟨n1, h1⟩ := createTable_tables db goalsSchema
  obtain ⟨n2, h2⟩ := createTable_tables (createTableIfNotExists db goalsSchema) tasksSchema
  obtain ⟨n3, h3⟩ := createTable_tables
    (createTableIfNotExists (createTableIfNotExists db goalsSchema) tasksSchema)
    dailyLogsSchema
  obtain ⟨n4, h4⟩ := createTable_tables
    (createTableIfNotExists
      (createTableIfNotExists (createTableIfNotExists db goalsSchema) tasksSchema)
      dailyLogsSchema) calendarEventsSchema
  obtain ⟨n5, h5⟩ := createTable_tables
    (createTableIfNotExists (createTableIfNotExists
      (createTableIfNotExists (createTableIfNotExists db goalsSchema) tasksSchema)
      dailyLogsSchema) calendarEventsSchema) patternsSchema
  refine ⟨n1 ++ n2 ++ n3 ++ n4 ++ n5, ?_⟩
  simp only [h5, h4, h3, h2, h1, List.append_assoc]

theorem runBody_mem_fiveNames (db : DB) :
    ∀ n ∈ fiveNames, n ∈ tableNames (runBody db) := by
  intro n hn
  unfold runBody
  have g1 := createTable_self_mem db goalsSchema
  have g2 := createTable_self_mem (createTableIfNotExists db goalsSchema) tasksSchema
  have g3 := createTable_self_mem
    (createTableIfNotExists (createTableIfNotExists db goalsSchema) tasksSchema) dailyLogsSchema
  have g4 := createTable_self_mem
    (createTableIfNotExists (createTableIfNotExists
      (createTableIfNotExists db goalsSchema) tasksSchema) dailyLogsSchema) calendarEventsSchema
  have g5 := createTable_self_mem
    (createTableIfNotExists (createTableIfNotExists (createTableIfNotExists
      (createTableIfNotExists db goalsSchema) tasksSchema) dailyLogsSchema)
      calendarEventsSchema) patternsSchema
  have hn2 : n = "goals" ∨ n = "tasks" ∨ n = "daily_logs" ∨
      n = "calendar_events" ∨ n = "patterns" := by
    simpa [fiveNames] using hn
  rcases hn2 with rfl | rfl | rfl | rfl | rfl
  · exact createTable_mono _ (createTable_mono _ (createTable_mono _ (createTable_mono _ g1)))
  · exact createTable_mono _ (createTable_mono _ (createTable_mono _ g2))
  · exact createTable_mono _ (createTable_mono _ g3)
  · exact createTable_mono _ g4
  · exact g5

theorem runBody_of_all_mem {db : DB} (h : ∀ n ∈ fiveNames, n ∈ tableNames db) :
    runBody db = db := by
  unfold runBody
  rw [createTable_of_mem (h "goals" (by simp [fiveNames]))]
  rw [createTable_of_mem (h "tasks" (by simp [fiveNames]))]
  rw [createTable_of_mem (h "daily_logs" (by simp [fiveNames]))]
  rw [createTable_of_mem (h "calendar_events" (by simp [fiveNames]))]
  rw [createTable_of_mem (h "patterns" (by simp [fiveNames]))]

theorem runBody_idem (db : DB) : runBody (runBody db) = runBody db :=
  runBody_of_all_mem (runBody_mem_fiveNames db)

theorem insertRow_schema {t : Table} {vals : List (String × Value)} {now : Nat}
    {t2 : Table} {n : Int} (h : insertRow t vals now = Except.ok (t2, n)) :
    t2.schema = t.schema ∧ t2.seq = t.seq + 1 ∧ n = t.seq + 1 := by
  unfold insertRow at h
  cases hb : buildRow t.schema.columns vals now (t.seq + 1) with
  | error e => rw [hb] at h; cases h
  | ok row =>
      rw [hb] at h
      cases h
      exact ⟨rfl, rfl, rfl⟩

theorem tablesInsert_names {ts : List Table} {tname : String} {vals : List (String × Value)}
    {now : Nat} {ts2 : List Table} (h : tablesInsert ts tname vals now = Except.ok ts2) :
    ts2.map (fun t => t.schema.name) = ts.map (fun t => t.schema.name) := by
  induction ts generalizing ts2 with
  | nil => cases h
  | cons t rest ih =>
      unfold tablesInsert at h
      by_cases hn : t.schema.name = tname
      · simp only [if_pos hn] at h
        cases hr : insertRow t vals now with
        | error e => rw [hr] at h; cases h
        | ok p =>
            rcases p with ⟨t2, m⟩
            rw [hr] at h
            cases h
            simp [List.map_cons, (insertRow_schema hr).1]
      · simp only [if_neg hn] at h
        cases hr : tablesInsert rest tname vals now with
        | error e => rw [hr] at h; cases h
        | ok rest2 =>
            rw [hr] at h
            cases h
            simp [List.map_cons, ih hr]

theorem tableNames_applyOp (db : DB) (op : DbOp) :
    tableNames (applyOp db op) = tableNames db := by
  cases op with
  | ins tname vals now =>
      simp only [applyOp]
      cases h : dbInsert db tname vals now with
      | error e => rfl
      | ok db2 =>
          unfold dbInsert at h
          cases ht : tablesInsert db.tables tname vals now with
          | error e => rw [ht] at h; cases h
          | ok ts =>
              rw [ht] at h
              cases h
              exact tablesInsert_names ht
  | del tname n =>
      simp only [applyOp]
      cases h : dbDelete db tname n with
      | error e => rfl
      | ok db2 =>
          unfold dbDelete at h
          by_cases hm : tname ∈ tableNames db
          · simp only [if_pos hm] at h
            cases h
            unfold tableNames
            simp only [List.map_map]
            refine List.map_congr_left (fun t _ => ?_)
            by_cases hn : t.schema.name = tname
            · simp [hn, deleteById]
            · simp [hn]
          · simp only [if_neg hm] at h
            cases h

theorem tableNames_applyOps (db : DB) (ops : List DbOp) :
    tableNames (applyOps db ops) = tableNames db := by
  induction ops generalizing db with
  | nil => rfl
  | cons op rest ih =>
      unfold applyOps at ih ⊢
      simp only [List.foldl_cons]
      rw [ih (applyOp db op), tableNames_applyOp]

theorem strData_append (a b : String) : (a ++ b).data = a.data ++ b.data := rfl

theorem strExt {a b : String} (h : a.data = b.data) : a = b := by
  cases a
  cases b
  exact congrArg String.mk h

theorem splitPathAux_ne_nil (cs acc : List Char) : splitPathAux cs acc ≠ [] := by
  induction cs generalizing acc with
  | nil => simp [splitPathAux]
  | cons c rest ih =>
      unfold splitPathAux
      by_cases hc : c = '/'
      · simp [if_pos hc]
      · simp only [if_neg hc]
        exact ih _

theorem joinPath_cons (s : String) (l : List String) (h : l ≠ []) :
    joinPath (s :: l) = s ++ "/" ++ joinPath l := by
  cases l with
  | nil => exact absurd rfl h
  | cons a r => rfl

theorem splitPathAux_join (cs acc : List Char) :
    (joinPath (splitPathAux cs acc)).data = acc.reverse ++ cs := by
  induction cs generalizing acc with
  | nil => simp [splitPathAux, joinPath]
  | cons c rest ih =>
      unfold splitPathAux
      by_cases hc : c = '/'
      · simp only [if_pos hc]
        rw [joinPath_cons _ _ (splitPathAux_ne_nil rest [])]
        rw [strData_append, strData_append, ih []]
        simp [hc]
      · simp only [if_neg hc]
        rw [ih (c :: acc)]
        simp

theorem joinPath_splitPath (p : String) : joinPath (splitPath p) = p := by
  refine strExt ?_
  have h := splitPathAux_join p.data []
  simpa [splitPath] using h

theorem sep_append_ne_empty (a b : String) : a ++ "/" ++ b ≠ "" := by
  intro h
  have h2 := congrArg String.data h
  rw [strData_append, strData_append] at h2
  simp at h2

theorem joinPath_mem_prefixChainAux (parts : List String) (acc : String) (ha : acc ≠ "")
    (hp : parts ≠ []) :
    joinPath (acc :: parts) ∈ prefixChainAux acc parts := by
  induction parts generalizing acc with
  | nil => exact absurd rfl hp
  | cons s rest ih =>
      unfold prefixChainAux
      simp only [if_neg ha]
      cases rest with
      | nil =>
          rw [joinPath_cons _ _ (by simp)]
          simp [joinPath]
      | cons r rr =>
          rw [joinPath_cons _ _ (by simp)]
          rw [joinPath_cons s (r :: rr) (by simp)]
          have h2 := ih (acc ++ "/" ++ s) (sep_append_ne_empty acc s) (by simp)
          rw [joinPath_cons _ _ (by simp)] at h2
          have hassoc : acc ++ "/" ++ s ++ "/" ++ joinPath (r :: rr)
              = acc ++ "/" ++ (s ++ "/" ++ joinPath (r :: rr)) := by
            refine strExt ?_
            simp [strData_append]
          rw [hassoc] at h2
          exact List.mem_cons_of_mem _ h2

theorem mem_dirPrefixes_self (d : String) (hwf : "" ∉ splitPath d) :
    d ∈ dirPrefixes d := by
  unfold dirPrefixes
  cases hsp : splitPath d with
  | nil => exact absurd hsp (splitPathAux_ne_nil d.data [])
  | cons s rest =>
      have hs : s ≠ "" := by
        intro h
        rw [h] at hsp
        exact hwf (by rw [hsp]; simp)
      unfold prefixChainAux
      simp only [if_pos rfl]
      cases rest with
      | nil =>
          have hj : joinPath (splitPath d) = d := joinPath_splitPath d
          rw [hsp] at hj
          simp only [joinPath] at hj
          simp [hj]
      | cons r rr =>
          have hj : joinPath (splitPath d) = d := joinPath_splitPath d
          rw [hsp] at hj
          have h2 := joinPath_mem_prefixChainAux (r :: rr) s hs (by simp)
          rw [hj] at h2
          simp only [if_true]
          exact List.mem_cons_of_mem _ h2

/-! ### Characterizations of initialize_database runs -/

theorem makedirs_ok_of_writable (fs : FS) (d : String) (hd : d ≠ "")
    (h : ∀ p ∈ dirPrefixes d, p ∉ fs.dirs → fs.writable p = true) :
    (makedirs fs d).2 = Except.ok () := by
  unfold makedirs
  simp only [if_neg hd]
  exact mkdirChain_ok_of_writable _ fs h

theorem makedirs_err_of_unwritable (fs : FS) (d p : String) (hd : d ≠ "")
    (hp : p ∈ dirPrefixes d) (hnd : p ∉ fs.dirs) (hw : fs.writable p = false) :
    (makedirs fs d).2 = Except.error (ErrKind.ioError "permission denied") := by
  unfold makedirs
  simp only [if_neg hd]
  exact mkdirChain_err_of_unwritable _ fs p hp hnd hw

theorem init_of_makedirs_err {fs : FS} {path : String} {e : ErrKind}
    (h : (makedirs fs (dirname path)).2 = Except.error e) :
    initialize_database fs path =
      ⟨(makedirs fs (dirname path)).1, Except.error e, false, false⟩ := by
  unfold initialize_database
  rcases hm : makedirs fs (dirname path) with ⟨fs1, r⟩
  rw [hm] at h
  simp only at h
  subst h
  rfl

theorem init_of_dbFile {fs : FS} {path : String} {db : DB}
    (hmk : (makedirs fs (dirname path)).2 = Except.ok ())
    (hfile : lookupFile fs.files path = some (FileContent.dbFile db)) :
    initialize_database fs path =
      ⟨setFile (makedirs fs (dirname path)).1 path (FileContent.dbFile (runBody db)),
       Except.ok (), true, true⟩ := by
  have hf1 : (makedirs fs (dirname path)).1.files = fs.files := makedirs_files fs (dirname path)
  unfold initialize_database
  rcases hm : makedirs fs (dirname path) with ⟨fs1, r⟩
  rw [hm] at hmk hf1
  simp only at hmk hf1
  subst hmk
  have hc : connect fs1 path = Except.ok (fs1, FileContent.dbFile db) := by
    unfold connect
    rw [hf1, hfile]
  simp only [hc]

theorem init_of_otherFile {fs : FS} {path : String}
    (hmk : (makedirs fs (dirname path)).2 = Except.ok ())
    (hfile : lookupFile fs.files path = some FileContent.otherFile) :
    initialize_database fs path =
      ⟨(makedirs fs (dirname path)).1,
       Except.error (ErrKind.databaseError "file is not a database"), true, false⟩ := by
  have hf1 : (makedirs fs (dirname path)).1.files = fs.files := makedirs_files fs (dirname path)
  unfold initialize_database
  rcases hm : makedirs fs (dirname path) with ⟨fs1, r⟩
  rw [hm] at hmk hf1
  simp only at hmk hf1
  subst hmk
  have hc : connect fs1 path = Except.ok (fs1, FileContent.otherFile) := by
    unfold connect
    rw [hf1, hfile]
  simp only [hc]

theorem init_of_fresh {fs : FS} {path : String}
    (hmk : (makedirs fs (dirname path)).2 = Except.ok ())
    (hfile : lookupFile fs.files path = none)
    (hdir : dirname path = "" ∨ dirname path ∈ (makedirs fs (dirname path)).1.dirs)
    (hw : fs.writable path = true) :
    initialize_database fs path =
      ⟨⟨(makedirs fs (dirname path)).1.dirs, fs.writable,
        (path, FileContent.dbFile (runBody emptyDB)) :: fs.files⟩,
       Except.ok (), true, true⟩ := by
  have hf1 : (makedirs fs (dirname path)).1.files = fs.files := makedirs_files fs (dirname path)
  have hw1 : (makedirs fs (dirname path)).1.writable = fs.writable :=
    makedirs_writable fs (dirname path)
  unfold initialize_database
  rcases hm : makedirs fs (dirname path) with ⟨fs1, r⟩
  rw [hm] at hmk hf1 hw1 hdir
  simp only at hmk hf1 hw1 hdir
  subst hmk
  have hwp : fs1.writable path = true := by rw [hw1]; exact hw
  have hc : connect fs1 path =
      Except.ok ({ fs1 with files := (path, FileContent.dbFile emptyDB) :: fs1.files },
        FileContent.dbFile emptyDB) := by
    unfold connect
    rw [hf1, hfile]
    simp only [if_pos (And.intro hdir hwp)]
  simp only [hc]
  simp only [setFile, setFileList, if_pos rfl]
  rw [hf1, hw1]
  simp only [if_true]

theorem init_of_fresh_conn_err {fs : FS} {path : String}
    (hmk : (makedirs fs (dirname path)).2 = Except.ok ())
    (hfile : lookupFile fs.files path = none)
    (hcond : ¬ ((dirname path = "" ∨ dirname path ∈ (makedirs fs (dirname path)).1.dirs)
      ∧ fs.writable path = true)) :
    initialize_database fs path =
      ⟨(makedirs fs (dirname path)).1,
       Except.error (ErrKind.ioError "unable to open database file"), false, false⟩ := by
  have hf1 : (makedirs fs (dirname path)).1.files = fs.files := makedirs_files fs (dirname path)
  have hw1 : (makedirs fs (dirname path)).1.writable = fs.writable :=
    makedirs_writable fs (dirname path)
  unfold initialize_database
  rcases hm : makedirs fs (dirname path) with ⟨fs1, r⟩
  rw [hm] at hmk hf1 hw1 hcond
  simp only at hmk hf1 hw1 hcond
  subst hmk
  have hc : connect fs1 path =
      Except.error (ErrKind.ioError "unable to open database file") := by
    unfold connect
    rw [hf1, hfile]
    rw [hw1]
    simp only [if_neg hcond]
  simp only [hc]

theorem init_ok_of_canInit {fs : FS} {path : String}
    (h : canInit fs path) (hfile : lookupFile fs.files path = none) :
    initialize_database fs path =
      ⟨⟨(makedirs fs (dirname path)).1.dirs, fs.writable,
        (path, FileContent.dbFile initialDB) :: fs.files⟩,
       Except.ok (), true, true⟩ := by
  obtain ⟨hd, hwf, hwd, hw⟩ := h
  have hmk : (makedirs fs (dirname path)).2 = Except.ok () :=
    makedirs_ok_of_writable fs (dirname path) hd hwd
  have hdir : dirname path ∈ (makedirs fs (dirname path)).1.dirs :=
    makedirs_ok_mem fs (dirname path) hmk (dirname path) (mem_dirPrefixes_self _ hwf)
  have he := init_of_fresh hmk hfile (Or.inr hdir) hw
  rw [he]
  rfl

/-! ### Claim theorems -/

/-- Claim C1: calling `initialize_database(path)` twice in succession on an
empty location yields the same five tables as calling it once; the second
call does not raise and does not alter any rows inserted between the two
calls (`ops` stands for the data-manipulation statements run in between;
`ops = []` is the plain twice-in-succession case). -/
theorem init_idempotent (fs : FS) (path : String) (ops : List DbOp)
    (h : canInit fs path) (hfile : lookupFile fs.files path = none) :
    (initialize_database fs path).outcome = Except.ok () ∧
    lookupFile (initialize_database fs path).fs.files path
      = some (FileContent.dbFile initialDB) ∧
    tableNames initialDB = fiveNames ∧
    (initialize_database
        (setFile (initialize_database fs path).fs path
          (FileContent.dbFile (applyOps initialDB ops))) path).outcome = Except.ok () ∧
    lookupFile (initialize_database
        (setFile (initialize_database fs path).fs path
          (FileContent.dbFile (applyOps initialDB ops))) path).fs.files path
      = some (FileContent.dbFile (applyOps initialDB ops)) := by
  have h1 := init_ok_of_canInit h hfile
  have hmk : (makedirs fs (dirname path)).2 = Except.ok () :=
    makedirs_ok_of_writable fs (dirname path) h.1 h.2.2.1
  have hpfx := makedirs_ok_mem fs (dirname path) hmk
  rw [h1]
  refine ⟨rfl, by simp [lookupFile], by decide, ?_⟩
  set db2 := applyOps initialDB ops with hdb2
  have hsetB : setFile
      (⟨⟨(makedirs fs (dirname path)).1.dirs, fs.writable,
        (path, FileContent.dbFile initialDB) :: fs.files⟩,
       Except.ok (), true, true⟩ : InitResult).fs path (FileContent.dbFile db2)
      = ⟨(makedirs fs (dirname path)).1.dirs, fs.writable,
        (path, FileContent.dbFile db2) :: fs.files⟩ := by
    simp [setFile, setFileList]
  rw [hsetB]
  set fsB : FS := ⟨(makedirs fs (dirname path)).1.dirs, fs.writable,
    (path, FileContent.dbFile db2) :: fs.files⟩ with hfsB
  have hmkB : makedirs fsB (dirname path) = (fsB, Except.ok ()) := by
    refine makedirs_of_all_mem fsB (dirname path) h.1 (fun d hd => ?_)
    exact hpfx d hd
  have hfileB : lookupFile fsB.files path = some (FileContent.dbFile db2) := by
    simp [hfsB, lookupFile]
  have hmkB2 : (makedirs fsB (dirname path)).2 = Except.ok () := by rw [hmkB]
  have h2 := init_of_dbFile hmkB2 hfileB
  have hnames : ∀ n ∈ fiveNames, n ∈ tableNames db2 := by
    intro n hn
    rw [hdb2, tableNames_applyOps]
    exact runBody_mem_fiveNames emptyDB n hn
  have hrb : runBody db2 = db2 := runBody_of_all_mem hnames
  rw [hrb] at h2
  rw [h2]
  refine ⟨rfl, ?_⟩
  rw [hmkB]
  simp only [setFile]
  exact lookupFile_setFileList _ path _

/-- Witness for C1: the concrete fresh-environment run at the default path
succeeds, and so does the second call made right after it. -/
theorem init_idempotent_witness :
    (initialize_database fsEmpty "data/nexus.db").outcome = Except.ok () ∧
    (initialize_database
        (setFile (initialize_database fsEmpty "data/nexus.db").fs "data/nexus.db"
          (FileContent.dbFile (applyOps initialDB []))) "data/nexus.db").outcome
      = Except.ok () :=
  ⟨(init_idempotent fsEmpty "data/nexus.db" [] (by unfold canInit; decide) rfl).1,
   (init_idempotent fsEmpty "data/nexus.db" [] (by unfold canInit; decide) rfl).2.2.2.1⟩

/-- Claim C2: after a successful run on a fresh location the storage file
holds exactly the five declared tables, and the schema defaults behave as
stated: a Goal inserted without `status` gets `"active"`, a Task inserted
without `status` gets `"pending"`, and an omitted `created_at` is filled
with the insert-time timestamp in every table. -/
theorem init_schema_complete (fs : FS) (path : String) (now : Nat)
    (h : canInit fs path) (hfile : lookupFile fs.files path = none) :
    lookupFile (initialize_database fs path).fs.files path
      = some (FileContent.dbFile initialDB) ∧
    initialDB.tables = [⟨goalsSchema, [], 0⟩, ⟨tasksSchema, [], 0⟩, ⟨dailyLogsSchema, [], 0⟩,
      ⟨calendarEventsSchema, [], 0⟩, ⟨patternsSchema, [], 0⟩] ∧
    insertRow ⟨goalsSchema, [], 0⟩ [("title", Value.text "g")] now
      = Except.ok (⟨goalsSchema, [[Value.int 1, Value.text "g", Value.null, Value.null,
          Value.null, Value.null, Value.text "active", Value.timestamp now]], 1⟩, 1) ∧
    insertRow ⟨tasksSchema, [], 0⟩ [("title", Value.text "t")] now
      = Except.ok (⟨tasksSchema, [[Value.int 1, Value.null, Value.text "t", Value.null,
          Value.text "pending", Value.null, Value.null, Value.timestamp now]], 1⟩, 1) ∧
    insertRow ⟨dailyLogsSchema, [], 0⟩ [("date", Value.text "2025-01-01")] now
      = Except.ok (⟨dailyLogsSchema, [[Value.int 1, Value.text "2025-01-01", Value.null,
          Value.timestamp now]], 1⟩, 1) ∧
    insertRow ⟨calendarEventsSchema, [], 0⟩ [] now
      = Except.ok (⟨calendarEventsSchema, [[Value.int 1, Value.null, Value.null, Value.null,
          Value.null, Value.null, Value.timestamp now]], 1⟩, 1) ∧
    insertRow ⟨patternsSchema, [], 0⟩ [] now
      = Except.ok (⟨patternsSchema, [[Value.int 1, Value.null, Value.null,
          Value.timestamp now]], 1⟩, 1) := by
  have h1 := init_ok_of_canInit h hfile
  rw [h1]
  exact ⟨by simp [lookupFile], rfl, rfl, rfl, rfl, rfl, rfl⟩

/-- Witness for C2: the concrete fresh-environment run at the default path,
with the insert clock at 42. -/
theorem init_schema_complete_witness :
    lookupFile (initialize_database fsEmpty "data/nexus.db").fs.files "data/nexus.db"
      = some (FileContent.dbFile initialDB) ∧
    insertRow ⟨goalsSchema, [], 0⟩ [("title", Value.text "g")] 42
      = Except.ok (⟨goalsSchema, [[Value.int 1, Value.text "g", Value.null, Value.null,
          Value.null, Value.null, Value.text "active", Value.timestamp 42]], 1⟩, 1) :=
  ⟨(init_schema_complete fsEmpty "data/nexus.db" 42 (by unfold canInit; decide) rfl).1,
   (init_schema_complete fsEmpty "data/nexus.db" 42 (by unfold canInit; decide) rfl).2.2.1⟩

/-- Counterexample to claim C3: when the file at the target path exists but
is not a SQLite database, the first executed statement raises after the
connection was opened, and — the Python function having no try/finally —
the connection is not released before the call returns. -/
theorem init_connection_not_released :
    (initialize_database fsNotADB "data/nexus.db").connOpened = true ∧
    (initialize_database fsNotADB "data/nexus.db").connClosed = false ∧
    (initialize_database fsNotADB "data/nexus.db").outcome
      = Except.error (ErrKind.databaseError "file is not a database") :=
  ⟨rfl, rfl, rfl⟩

/-- Amended claim C3: the connection opened by `initialize_database` is
released before the call returns exactly on the successful exit path; on a
failure raised after the connection was opened, the close never runs. -/
theorem init_conn_closed_iff_success (fs : FS) (path : String) :
    ((initialize_database fs path).outcome = Except.ok () →
      (initialize_database fs path).connOpened = true ∧
      (initialize_database fs path).connClosed = true) ∧
    ((initialize_database fs path).connClosed = true →
      (initialize_database fs path).outcome = Except.ok ()) := by
  unfold initialize_database
  rcases hm : makedirs fs (dirname path) with ⟨fs1, r⟩
  cases r with
  | error e =>
      exact ⟨fun h => Except.noConfusion h, fun h => Bool.noConfusion h⟩
  | ok u =>
      cases hc : connect fs1 path with
      | error e => simp [hc]
      | ok p =>
          rcases p with ⟨fs2, content⟩
          cases content with
          | dbFile db => simp [hc]
          | otherFile => simp [hc]

/-- Witness for the amended C3: on the concrete fresh environment the call
succeeds and the connection is indeed closed. -/
theorem init_conn_closed_iff_success_witness :
    (initialize_database fsEmpty "data/nexus.db").connOpened = true ∧
    (initialize_database fsEmpty "data/nexus.db").connClosed = true :=
  (init_conn_closed_iff_success fsEmpty "data/nexus.db").1 rfl

/-- Counterexample to claim C4: with an incompatible table named `goals`
already present at the target path, `initialize_database` does not fail
with a schema error — the `CREATE TABLE IF NOT EXISTS` statement is a
no-op, the call reports success, and the conflicting table is still there
unchanged. -/
theorem init_no_schema_error_on_conflict :
    (initialize_database fsConflict "data/nexus.db").outcome = Except.ok () ∧
    (∃ db2, lookupFile (initialize_database fsConflict "data/nexus.db").fs.files "data/nexus.db"
        = some (FileContent.dbFile db2) ∧ db2.tables.head? = some conflictTable) :=
  ⟨rfl, ⟨_, rfl, rfl⟩⟩

/-- Amended claim C4: when an object with one of the five table names
already exists with an incompatible shape, `initialize_database` does not
drop or recreate it — every pre-existing table survives unchanged, as a
prefix of the table list — but it raises no schema error either: the
conflicting create is a no-op and the call reports success. -/
theorem init_keeps_conflicting_table (fs : FS) (path : String) (db : DB)
    (hmk : (makedirs fs (dirname path)).2 = Except.ok ())
    (hfile : lookupFile fs.files path = some (FileContent.dbFile db)) :
    (initialize_database fs path).outcome = Except.ok () ∧
    lookupFile (initialize_database fs path).fs.files path
      = some (FileContent.dbFile (runBody db)) ∧
    (∃ created, (runBody db).tables = db.tables ++ created) ∧
    (∀ n ∈ fiveNames, n ∈ tableNames (runBody db)) := by
  have h2 := init_of_dbFile hmk hfile
  rw [h2]
  refine ⟨rfl, ?_, runBody_tables db, runBody_mem_fiveNames db⟩
  simp only [setFile]
  exact lookupFile_setFileList _ path _

/-- Witness for the amended C4: the concrete conflicting-`goals`
environment. -/
theorem init_keeps_conflicting_table_witness :
    (initialize_database fsConflict "data/nexus.db").outcome = Except.ok () ∧
    lookupFile (initialize_database fsConflict "data/nexus.db").fs.files "data/nexus.db"
      = some (FileContent.dbFile (runBody ⟨[conflictTable]⟩)) :=
  ⟨(init_keeps_conflicting_table fsConflict "data/nexus.db" ⟨[conflictTable]⟩ rfl rfl).1,
   (init_keeps_conflicting_table fsConflict "data/nexus.db" ⟨[conflictTable]⟩ rfl rfl).2.1⟩

/-- Counterexample to claim C5: `daily_logs.date` is declared `NOT NULL` as
well, so Goal.title and Task.title are not the only mandatory columns: a
`daily_logs` row omitting `date` is rejected. -/
theorem daily_logs_date_mandatory :
    (dailyLogsSchema.columns.map (fun c => (c.name, c.notNull)))
      = [("id", false), ("date", true), ("notes", false), ("created_at", false)] ∧
    insertRow ⟨dailyLogsSchema, [], 0⟩ [] 0
      = Except.error (ErrKind.constraintError "NOT NULL constraint failed: date") :=
  ⟨rfl, rfl⟩

/-- Amended claim C5: exactly Goal.title, Task.title and DailyLog.date are
mandatory (NOT NULL); a row omitting any other non-id column can be
inserted in every table, while omitting one of these three is rejected. -/
theorem mandatory_columns_exact (now : Nat) :
    (fiveSchemas.map (fun ts => (ts.columns.filter (fun c => c.notNull)).map Column.name))
      = [["title"], ["title"], ["date"], [], []] ∧
    insertRow ⟨goalsSchema, [], 0⟩ [] now
      = Except.error (ErrKind.constraintError "NOT NULL constraint failed: title") ∧
    insertRow ⟨tasksSchema, [], 0⟩ [] now
      = Except.error (ErrKind.constraintError "NOT NULL constraint failed: title") ∧
    insertRow ⟨dailyLogsSchema, [], 0⟩ [] now
      = Except.error (ErrKind.constraintError "NOT NULL constraint failed: date") ∧
    (∃ t, insertRow ⟨goalsSchema, [], 0⟩ [("title", Value.text "g")] now = Except.ok t) ∧
    (∃ t, insertRow ⟨tasksSchema, [], 0⟩ [("title", Value.text "t")] now = Except.ok t) ∧
    (∃ t, insertRow ⟨dailyLogsSchema, [], 0⟩ [("date", Value.text "d")] now = Except.ok t) ∧
    (∃ t, insertRow ⟨calendarEventsSchema, [], 0⟩ [] now = Except.ok t) ∧
    (∃ t, insertRow ⟨patternsSchema, [], 0⟩ [] now = Except.ok t) :=
  ⟨rfl, rfl, rfl, rfl, ⟨_, rfl⟩, ⟨_, rfl⟩, ⟨_, rfl⟩, ⟨_, rfl⟩, ⟨_, rfl⟩⟩

/-- Claim C6: the parent directory of the path need not exist beforehand:
when it is missing (and the environment permits creation, per `canInit`),
`initialize_database` creates every missing intermediate directory and
completes successfully. -/
theorem init_creates_missing_dirs (fs : FS) (path : String)
    (h : canInit fs path) (_hmissing : dirname path ∉ fs.dirs)
    (hfile : lookupFile fs.files path = none) :
    (initialize_database fs path).outcome = Except.ok () ∧
    (∀ d ∈ dirPrefixes (dirname path), d ∈ (initialize_database fs path).fs.dirs) ∧
    dirname path ∈ (initialize_database fs path).fs.dirs := by
  have h1 := init_ok_of_canInit h hfile
  have hmk : (makedirs fs (dirname path)).2 = Except.ok () :=
    makedirs_ok_of_writable fs (dirname path) h.1 h.2.2.1
  rw [h1]
  refine ⟨rfl, ?_, ?_⟩
  · exact makedirs_ok_mem fs (dirname path) hmk
  · exact makedirs_ok_mem fs (dirname path) hmk (dirname path)
      (mem_dirPrefixes_self _ h.2.1)

/-- Witness for C6: the fresh environment, where `data` does not yet
exist. -/
theorem init_creates_missing_dirs_witness :
    (initialize_database fsEmpty "data/nexus.db").outcome = Except.ok () ∧
    "data" ∈ (initialize_database fsEmpty "data/nexus.db").fs.dirs :=
  ⟨(init_creates_missing_dirs fsEmpty "data/nexus.db" (by unfold canInit; decide)
      (by decide) rfl).1,
   (init_creates_missing_dirs fsEmpty "data/nexus.db" (by unfold canInit; decide)
      (by decide) rfl).2.2⟩

/-- Claim C7: the command-line entry point runs initialization against the
default location `data/nexus.db`; on success it exits 0 after printing the
single confirmation line naming that location, and on an initialization
failure — which it does not catch — it exits nonzero with diagnostic
output and without the confirmation line. -/
theorem cli_behavior (fs : FS) :
    (scriptMain fs).init = initialize_database fs defaultDbPath ∧
    defaultDbPath = "data/nexus.db" ∧
    ((initialize_database fs defaultDbPath).outcome = Except.ok () →
      (scriptMain fs).exitCode = 0 ∧
      (scriptMain fs).stdout = ["Database initialized successfully at data/nexus.db"] ∧
      (scriptMain fs).stderr = []) ∧
    (∀ e, (initialize_database fs defaultDbPath).outcome = Except.error e →
      (scriptMain fs).exitCode = 1 ∧ (scriptMain fs).stdout = [] ∧
      (scriptMain fs).stderr ≠ []) := by
  unfold scriptMain
  cases h : (initialize_database fs defaultDbPath).outcome with
  | ok u =>
      exact ⟨rfl, rfl, fun _ => ⟨rfl, rfl, rfl⟩, fun e he => Except.noConfusion he⟩
  | error e0 =>
      exact ⟨rfl, rfl, fun hok => Except.noConfusion hok, fun e he => ⟨rfl, rfl, by simp⟩⟩

/-- Witness for C7: the fresh environment succeeds with exit code 0 and the
confirmation line; the permission-denied environment fails with exit code 1
and no confirmation. -/
theorem cli_behavior_witness :
    ((scriptMain fsEmpty).exitCode = 0 ∧
      (scriptMain fsEmpty).stdout
        = ["Database initialized successfully at data/nexus.db"] ∧
      (scriptMain fsEmpty).stderr = []) ∧
    ((scriptMain fsDenied).exitCode = 1 ∧ (scriptMain fsDenied).stdout = [] ∧
      (scriptMain fsDenied).stderr ≠ []) :=
  ⟨(cli_behavior fsEmpty).2.2.1 rfl,
   (cli_behavior fsDenied).2.2.2 (ErrKind.ioError "permission denied") rfl⟩

/-- Claim C8: when the parent directory of the path cannot be created (a
missing ancestor the permission model refuses), `initialize_database`
raises an I/O error and leaves no storage file behind at the path. -/
theorem init_io_error_no_file (fs : FS) (path : String) (p : String)
    (hd : dirname path ≠ "")
    (hp : p ∈ dirPrefixes (dirname path)) (hnd : p ∉ fs.dirs)
    (hw : fs.writable p = false)
    (hfile : lookupFile fs.files path = none) :
    (∃ msg, (initialize_database fs path).outcome = Except.error (ErrKind.ioError msg)) ∧
    lookupFile (initialize_database fs path).fs.files path = none := by
  have hmk := makedirs_err_of_unwritable fs (dirname path) p hd hp hnd hw
  have h1 := init_of_makedirs_err hmk
  rw [h1]
  exact ⟨⟨"permission denied", rfl⟩, by rw [makedirs_files]; exact hfile⟩

/-- Witness for C8: the permission-denied environment at the default
path. -/
theorem init_io_error_no_file_witness :
    (∃ msg, (initialize_database fsDenied "data/nexus.db").outcome
      = Except.error (ErrKind.ioError msg)) ∧
    lookupFile (initialize_database fsDenied "data/nexus.db").fs.files "data/nexus.db"
      = none :=
  init_io_error_no_file fsDenied "data/nexus.db" "data" (by decide) (by decide)
    (by decide) rfl rfl

/-- Claim C9: the Task-to-Goal relationship is declared in the schema
(`FOREIGN KEY(goal_id) REFERENCES goals(id)`) but not policed: a task whose
`goal_id` matches no goal is accepted, and deleting a goal that tasks
reference succeeds without error and without cascading into the tasks
table. -/
theorem fk_declared_not_enforced :
    tasksSchema.foreignKeys = [⟨"goal_id", "goals", "id"⟩] ∧
    (∃ db2, dbInsert initialDB "tasks"
        [("title", Value.text "t"), ("goal_id", Value.int 999)] 7 = Except.ok db2 ∧
      dbRows db2 "goals" = []) ∧
    (∃ dbA dbB dbC,
      dbInsert initialDB "goals" [("title", Value.text "g")] 1 = Except.ok dbA ∧
      dbInsert dbA "tasks" [("title", Value.text "t"), ("goal_id", Value.int 1)] 2
        = Except.ok dbB ∧
      dbDelete dbB "goals" 1 = Except.ok dbC ∧
      dbRows dbC "goals" = [] ∧
      dbRows dbC "tasks" = dbRows dbB "tasks" ∧
      dbRows dbC "tasks" = [[Value.int 1, Value.int 1, Value.text "t", Value.null,
        Value.text "pending", Value.null, Value.null, Value.timestamp 2]]) :=
  ⟨rfl, ⟨_, rfl, rfl⟩, ⟨_, _, _, rfl, rfl, rfl, rfl, rfl, rfl⟩⟩

theorem assignedIds_facts : ∀ (ops : List TableOp) (t : Table),
    (∀ m ∈ assignedIds t ops, t.seq < m) ∧
    List.Pairwise (fun a b => a < b) (assignedIds t ops) := by
  intro ops
  induction ops with
  | nil =>
      intro t
      exact ⟨fun m hm => absurd hm (by simp [assignedIds]), by simp [assignedIds]⟩
  | cons op rest ih =>
      intro t
      cases op with
      | ins vals now =>
          cases hr : insertRow t vals now with
          | error e =>
              have ha : assignedIds t (TableOp.ins vals now :: rest)
                  = assignedIds t rest := by
                simp only [assignedIds, hr]
              rw [ha]
              exact ih t
          | ok p =>
              rcases p with ⟨t2, n⟩
              obtain ⟨-, hseq, hn⟩ := insertRow_schema hr
              have ha : assignedIds t (TableOp.ins vals now :: rest)
                  = n :: assignedIds t2 rest := by
                simp only [assignedIds, hr]
              rw [ha]
              have iht2 := ih t2
              constructor
              · intro m hm
                rcases List.mem_cons.mp hm with rfl | hm2
                · omega
                · have hlt := iht2.1 m hm2
                  rw [hseq] at hlt
                  omega
              · refine List.Pairwise.cons (fun m hm2 => ?_) iht2.2
                have hlt := iht2.1 m hm2
                rw [hseq] at hlt
                omega
      | del k =>
          have ha : assignedIds t (TableOp.del k :: rest)
              = assignedIds (deleteById t k) rest := rfl
          rw [ha]
          have ihd := ih (deleteById t k)
          have hseq : (deleteById t k).seq = t.seq := rfl
          rw [hseq] at ihd
          exact ihd

/-- Claim C10: every table declares `id INTEGER PRIMARY KEY AUTOINCREMENT`
as its first column, and the automatically assigned row ids of any
operation history (inserts interleaved with deletes) are strictly
increasing, so an id is never reused even after the row holding it was
deleted. -/
theorem autoincrement_ids_strictly_increasing :
    (fiveSchemas.map (fun ts => ts.columns.head?))
      = List.replicate 5 (some ⟨"id", "INTEGER", false, ColDefault.noDefault, true⟩) ∧
    (∀ (t : Table) (ops : List TableOp),
      List.Pairwise (fun a b => a < b) (assignedIds t ops)) :=
  ⟨rfl, fun t ops => (assignedIds_facts ops t).2⟩
